import Mathlib

/-!
Shallow embedding of `src/olympic_data.py`, a single-file Dash dashboard over a
fixed CSV of Olympic athlete-event records, together with theorems about its
aggregation and chart-building functions.

The table is a list of rows; pandas operations are translated as follows:
`df[mask]` is `List.filter`; `groupby(k)` enumerates the distinct keys of the
filtered table in ascending key order (pandas groupby sorts its keys) and
aggregates the rows of each key; `Series.unique()` keeps first-appearance
order; `idxmax` on an empty column raises, which is modelled with `Except`;
float percentages are modelled with `ℚ`.
-/

/-- One athlete-event row of the loaded CSV (`df` in the source). `medal` is
`none` for the rows whose medal cell is missing (NaN in pandas). -/
structure Row where
  year : Int
  season : String
  sport : String
  team : String
  sex : String
  medal : Option String
deriving DecidableEq, Repr

abbrev Table := List Row

/-- Code-point lexicographic strict order on character lists, the order pandas
uses on string keys.  (The library's `String` order is not kernel-reducible, so
the comparison is spelled out on `String.data`.) -/
def charsLt : List Char → List Char → Bool
  | [], [] => false
  | [], _ :: _ => true
  | _ :: _, [] => false
  | a :: as, b :: bs =>
    if a.val < b.val then true else if b.val < a.val then false else charsLt as bs

/-- Strict lexicographic order on strings. -/
def stringLt (a b : String) : Bool := charsLt a.data b.data

/-- Reflexive lexicographic order on strings (total-order complement of
`stringLt`). -/
def stringLe (a b : String) : Bool := !(stringLt b a)

/-- Ascending sort of a list of strings. -/
def sortStrings (l : List String) : List String :=
  l.insertionSort (fun a b => stringLe a b = true)

/-- Python truthiness filter for the sport dropdown: `if sport:` runs the
filter only when the value is neither `None` nor the empty string
(`olympic_data.py` lines 50-51, 219-220, 293-294). -/
def applySportFilter (l : Table) (sport : Option String) : Table :=
  match sport with
  | none => l
  | some s => if s = "" then l else l.filter (fun r => r.sport == s)

/-- Python truthiness filter for the hovered team: `if hovered_team:`
(`olympic_data.py` lines 217-218, 291-292). -/
def applyTeamFilter (l : Table) (team : Option String) : Table :=
  match team with
  | none => l
  | some t => if t = "" then l else l.filter (fun r => r.team == t)

/-- The row subset aggregated by `calculate_team_stats`: year and
season=Summer, then the optional sport (`olympic_data.py` lines 49-51). -/
def teamStatsFiltered (df : Table) (year : Int) (sport : Option String) : Table :=
  applySportFilter (df.filter (fun r => r.year == year && r.season == "Summer")) sport

/-- The distinct team keys of a table in ascending order, as produced by
`df_filtered.groupby('team')`. -/
def teamKeys (l : Table) : List String := sortStrings (l.map Row.team).dedup

/-- One output row of `calculate_team_stats`. -/
structure TeamStat where
  team : String
  total_athletes : Nat
  female_athletes : Nat
  female_percentage : ℚ
deriving DecidableEq, Repr

/-- `calculate_team_stats(df, year, sport)` (`olympic_data.py` lines 47-61):
filter to the year and Summer season and the optional sport, group by team,
count rows and rows with sex `F` per team, and derive the female percentage. -/
def calculate_team_stats (df : Table) (year : Int) (sport : Option String) :
    List TeamStat :=
  let df_filtered := teamStatsFiltered df year sport
  (teamKeys df_filtered).map (fun t =>
    let rows := df_filtered.filter (fun r => r.team == t)
    let total := rows.length
    let fem := (rows.filter (fun r => r.sex == "F")).length
    { team := t, total_athletes := total, female_athletes := fem,
      female_percentage := (fem : ℚ) / (total : ℚ) * 100 })

/-- `summer_data = df[df['season'] == 'Summer']` (line 38). -/
def summer_data (df : Table) : Table := df.filter (fun r => r.season == "Summer")

/-- pandas `Series.unique()`: the distinct values of a column in order of
first appearance.  (Mathlib's `List.dedup` keeps the last occurrence instead,
so the function is spelled out: keep the head, drop its copies from the
deduplicated tail.) -/
def uniqueFirst {α : Type} [DecidableEq α] : List α → List α
  | [] => []
  | a :: as => a :: (uniqueFirst as).filter (fun b => !(b == a))

/-- The spec's reading of first-appearance order, worded independently of
`uniqueFirst`: scan the column left to right and append each value not seen
before. -/
def appearanceOrderUnique {α : Type} [DecidableEq α] (l : List α) : List α :=
  l.foldl (fun acc a => if a ∈ acc then acc else acc ++ [a]) []

/-- `valid_years = summer_data['year'].unique()` (line 39): distinct years in
first-appearance order, as pandas `unique` returns them. -/
def valid_years (df : Table) : List Int := uniqueFirst ((summer_data df).map Row.year)

/-- `valid_sports = summer_data['sport'].unique()` (line 40). -/
def valid_sports (df : Table) : List String := uniqueFirst ((summer_data df).map Row.sport)

/-- `sports_options` (line 43): one dropdown option per entry of
`valid_sports`, in the same order (label and value coincide). -/
def sports_options (df : Table) : List String := valid_sports df

/-- `year_marks` (line 44) is built from `sorted(valid_years)`. -/
def year_marks (df : Table) : List Int :=
  (valid_years df).insertionSort (fun a b => a ≤ b)

/-- The year slider's `min=min(valid_years)` (line 82); Python `min` faults on
an empty sequence, hence the `Option`. -/
def slider_min (df : Table) : Option Int := (valid_years df).min?

/-- The year slider's `max=max(valid_years)` (line 83). -/
def slider_max (df : Table) : Option Int := (valid_years df).max?

/-- `Series.idxmax()` followed by `.loc`, as used on the aggregate's columns in
`update_map` (lines 146, 149): the first row attaining the maximum of `f`, or
`none` on an empty frame (where pandas raises `ValueError`). -/
def idxmaxBy {α β : Type} [LT β] [DecidableRel (fun a b : β => a < b)]
    (f : α → β) : List α → Option α
  | [] => none
  | x :: xs => some (xs.foldl (fun best y => if f best < f y then y else best) x)

/-- The choropleth figure built by `update_map`: the aggregate drives the
locations, color values and hover custom data, and the annotation cites the
arg-max teams (lines 133-173). -/
structure ChoroplethFig where
  data : List TeamStat
  max_female_team : String
  max_female_count : Nat
  max_pct_team : String
  max_pct_value : ℚ
  title_year : Int
  title_sport : Option String
deriving DecidableEq, Repr

/-- `update_map(selected_year, selected_sport)` (lines 128-201).  The two
`idxmax` calls on the aggregate raise `ValueError` in pandas when the
aggregate has no rows; that failure path is the `Except.error` case. -/
def update_map (df : Table) (selected_year : Int) (selected_sport : Option String) :
    Except String ChoroplethFig :=
  let team_stats_df := calculate_team_stats df selected_year selected_sport
  match idxmaxBy (fun r => r.female_athletes) team_stats_df with
  | none => Except.error "attempt to get argmax of an empty sequence"
  | some max_female =>
    match idxmaxBy (fun r => r.female_percentage) team_stats_df with
    | none => Except.error "attempt to get argmax of an empty sequence"
    | some max_female_percentage =>
      Except.ok
        { data := team_stats_df,
          max_female_team := max_female.team,
          max_female_count := max_female.female_athletes,
          max_pct_team := max_female_percentage.team,
          max_pct_value := max_female_percentage.female_percentage,
          title_year := selected_year,
          title_sport := selected_sport }

/-- The row subset feeding the line chart: Summer season, then the optional
hovered team, then the optional sport (lines 216-220).  The selected year is
not part of this filter. -/
def lineFiltered (df : Table) (hovered_team : Option String)
    (selected_sport : Option String) : Table :=
  applySportFilter
    (applyTeamFilter (df.filter (fun r => r.season == "Summer")) hovered_team)
    selected_sport

/-- The distinct `(year, sex)` keys of a table in ascending lexicographic
order, as produced by `groupby(['year', 'sex'])`. -/
def yearSexKeys (l : Table) : List (Int × String) :=
  ((l.map (fun r => (r.year, r.sex))).dedup).insertionSort
    (fun a b => a.1 < b.1 ∨ (a.1 = b.1 ∧ stringLe a.2 b.2 = true))

/-- `athlete_counts = df_filtered.groupby(['year','sex']).size()` (line 223):
each key with the number of rows carrying it. -/
def athlete_counts (l : Table) : List (Int × String × Nat) :=
  (yearSexKeys l).map (fun k =>
    (k.1, k.2, (l.filter (fun r => r.year == k.1 && r.sex == k.2)).length))

/-- One `go.Scatter` trace of the line chart: display name plus the
`(year, count)` points of one sex. -/
structure Series where
  name : String
  points : List (Int × Nat)
deriving DecidableEq, Repr

/-- The per-gender trace of lines 227-236: the rows of `athlete_counts` whose
sex equals `gender`, plotted as years against counts. -/
def genderSeries (counts : List (Int × String × Nat)) (gender display : String) :
    Series :=
  let gender_data := counts.filter (fun k => k.2.1 == gender)
  { name := display, points := gender_data.map (fun k => (k.1, k.2.2)) }

/-- The line-chart figure: the two traces, the dashed vertical line at the
selected year (line 240), and the hovered team shown in the title. -/
structure LineFig where
  series : List Series
  vline_x : Int
  title_team : Option String
deriving DecidableEq, Repr

/-- `update_line_chart(hover_data, selected_year, selected_sport)`
(lines 211-276).  The hover argument stands for the team name extracted from
the hover event (`hover_data['points'][0]['location']`), `none` when no hover
is active. -/
def update_line_chart (df : Table) (hovered_team : Option String)
    (selected_year : Int) (selected_sport : Option String) : LineFig :=
  let df_filtered := lineFiltered df hovered_team selected_sport
  let counts := athlete_counts df_filtered
  { series := [genderSeries counts "F" "Female", genderSeries counts "M" "Male"],
    vline_x := selected_year,
    title_team := hovered_team }

/-- The row subset feeding the sunburst: selected year and Summer season, then
the optional hovered team, then the optional sport (lines 290-294). -/
def sunburstFiltered (df : Table) (hovered_team : Option String)
    (selected_year : Int) (selected_sport : Option String) : Table :=
  applySportFilter
    (applyTeamFilter
      (df.filter (fun r => r.year == selected_year && r.season == "Summer"))
      hovered_team)
    selected_sport

/-- The distinct `(sex, medal)` keys of `groupby(['sex','medal'])` in
ascending order.  pandas groupby drops keys containing NaN (its default
`dropna=True`), so rows without a medal contribute no key. -/
def sexMedalKeys (l : Table) : List (String × String) :=
  (((l.filter (fun r => r.medal.isSome)).map
      (fun r => (r.sex, r.medal.getD ""))).dedup).insertionSort
    (fun a b => stringLt a.1 b.1 = true ∨ (a.1 = b.1 ∧ stringLe a.2 b.2 = true))

/-- `medal_counts = df_filtered.groupby(['sex','medal']).size()` (line 297):
rows whose medal cell is missing are dropped by the groupby, the remaining
rows are counted per `(sex, medal)` key. -/
def medal_counts_of (l : Table) : List (String × String × Nat) :=
  (sexMedalKeys l).map (fun k =>
    (k.1, k.2, ((l.filter (fun r => r.medal.isSome)).filter
      (fun r => r.sex == k.1 && r.medal == some k.2)).length))

/-- The sunburst figure: the `(sex, medal, count)` aggregate sized by count,
with year and hovered team in the title. -/
structure SunburstFig where
  medal_counts : List (String × String × Nat)
  title_year : Int
  title_team : Option String
deriving DecidableEq, Repr

/-- `update_sunburst(hover_data, selected_year, selected_sport)`
(lines 285-348). -/
def update_sunburst (df : Table) (hovered_team : Option String)
    (selected_year : Int) (selected_sport : Option String) : SunburstFig :=
  { medal_counts := medal_counts_of (sunburstFiltered df hovered_team selected_year selected_sport),
    title_year := selected_year,
    title_team := hovered_team }

/-- The reactive binding layer (the three `@app.callback` declarations): on a
control state `(year, sport, hover)` the three builders are re-invoked; the
choropleth callback's declared inputs are only the year slider and the sport
dropdown (lines 123-127), while the other two also receive the hover event. -/
def render_charts (df : Table) (selected_year : Int) (selected_sport : Option String)
    (hover : Option String) : Except String ChoroplethFig × LineFig × SunburstFig :=
  (update_map df selected_year selected_sport,
   update_line_chart df hover selected_year selected_sport,
   update_sunburst df hover selected_year selected_sport)

/-- State-passing form of one aggregator invocation, returning the aggregate
together with the source table after the call.  The source function only reads
`df`: boolean-mask selection and `groupby(...).agg(...).reset_index()` all
allocate new frames, and the single in-place assignment (line 60) adds a
column to the freshly built aggregate, so the call leaves the source table as
it was. -/
def calculate_team_stats_run (df : Table) (year : Int) (sport : Option String) :
    List TeamStat × Table :=
  (calculate_team_stats df year sport, df)

/-- State-passing form of one round of the three chart callbacks: the figures
together with the source table after the round.  None of the builders writes
to `df`, so the table passes through unchanged. -/
def render_charts_run (df : Table) (selected_year : Int)
    (selected_sport : Option String) (hover : Option String) :
    (Except String ChoroplethFig × LineFig × SunburstFig) × Table :=
  (render_charts df selected_year selected_sport hover, df)

/-- A one-row sample table: a female gold medallist for team `A` at the 2000
Summer games. -/
def df0 : Table := [⟨2000, "Summer", "Swimming", "A", "F", some "Gold"⟩]

/-- The aggregate row `calculate_team_stats` produces for `df0` at year 2000
with no sport selected. -/
def statA : TeamStat := ⟨"A", 1, 1, ((1 : ℕ) : ℚ) / ((1 : ℕ) : ℚ) * 100⟩

/-- Two teams whose rows are identical apart from the team name. -/
def dfAB : Table :=
  [⟨2000, "Summer", "Swimming", "A", "F", some "Gold"⟩,
   ⟨2000, "Summer", "Swimming", "B", "F", some "Gold"⟩]

/-- A table whose Summer sports appear in non-alphabetical order, with sport
`B` recurring so that first-appearance order is visible. -/
def dfC6 : Table :=
  [⟨2000, "Summer", "B", "T", "F", none⟩, ⟨1996, "Summer", "A", "T", "M", none⟩,
   ⟨1996, "Summer", "B", "T", "F", none⟩]

/-- Two rows of one team and sex that differ only in their sport. -/
def dfC8 : Table :=
  [⟨2000, "Summer", "A", "T", "F", none⟩, ⟨2000, "Summer", "B", "T", "F", none⟩]

/-- A table with one medal-winning row and one row without a medal. -/
def dfMix : Table :=
  [⟨2000, "Summer", "Swimming", "A", "F", some "Gold"⟩,
   ⟨2000, "Summer", "Swimming", "A", "M", none⟩]

lemma filter_swap (p q : Row → Bool) (l : Table) :
    (l.filter p).filter q = (l.filter q).filter p := by
  rw [List.filter_filter, List.filter_filter]
  exact List.filter_congr fun a _ => Bool.and_comm _ _

lemma mem_uniqueFirst {α : Type} [DecidableEq α] {l : List α} {x : α} :
    x ∈ uniqueFirst l ↔ x ∈ l := by
  induction l with
  | nil => simp [uniqueFirst]
  | cons a as ih =>
    simp only [uniqueFirst, List.mem_cons, List.mem_filter, ih]
    constructor
    · rintro (rfl | ⟨h, -⟩)
      · exact Or.inl rfl
      · exact Or.inr h
    · rintro (rfl | h)
      · exact Or.inl rfl
      · by_cases hxa : x = a
        · exact Or.inl hxa
        · exact Or.inr ⟨h, by simp [hxa]⟩

lemma nodup_uniqueFirst {α : Type} [DecidableEq α] (l : List α) :
    (uniqueFirst l).Nodup := by
  induction l with
  | nil => simp [uniqueFirst]
  | cons a as ih =>
    rw [show uniqueFirst (a :: as) = a :: (uniqueFirst as).filter (fun b => !(b == a)) from rfl,
      List.nodup_cons]
    refine ⟨?_, ih.filter _⟩
    intro hmem
    obtain ⟨-, hne⟩ := List.mem_filter.1 hmem
    simp at hne

lemma uniqueFirst_filter {α : Type} [DecidableEq α] (p : α → Bool) (l : List α) :
    uniqueFirst (l.filter p) = (uniqueFirst l).filter p := by
  induction l with
  | nil => rfl
  | cons a as ih =>
    by_cases hpa : p a = true
    · rw [List.filter_cons_of_pos hpa]
      show a :: (uniqueFirst (as.filter p)).filter (fun b => !(b == a))
          = (a :: (uniqueFirst as).filter (fun b => !(b == a))).filter p
      rw [List.filter_cons_of_pos hpa, ih, List.filter_filter, List.filter_filter]
      exact congrArg (a :: ·) (List.filter_congr fun b _ => Bool.and_comm _ _)
    · rw [List.filter_cons_of_neg hpa, ih]
      show (uniqueFirst as).filter p
          = (a :: (uniqueFirst as).filter (fun b => !(b == a))).filter p
      rw [List.filter_cons_of_neg hpa, List.filter_filter]
      exact List.filter_congr fun b _ => by
        by_cases hb : b = a
        · subst hb
          simp [Bool.eq_false_iff.2 hpa]
        · simp [hb]

lemma foldl_uniqueFirst_gen {α : Type} [DecidableEq α] :
    ∀ (l acc : List α),
      List.foldl (fun acc a => if a ∈ acc then acc else acc ++ [a]) acc l
        = acc ++ uniqueFirst (l.filter (fun b => decide (b ∉ acc))) := by
  intro l
  induction l with
  | nil =>
    intro acc
    simp [uniqueFirst]
  | cons a as ih =>
    intro acc
    rw [List.foldl_cons]
    by_cases ha : a ∈ acc
    · rw [if_pos ha, ih, List.filter_cons_of_neg (by simp [ha])]
    · rw [if_neg ha, ih, List.append_assoc, List.filter_cons_of_pos (by simp [ha])]
      congr 1
      show a :: uniqueFirst (as.filter (fun b => decide (b ∉ acc ++ [a])))
          = a :: (uniqueFirst (as.filter (fun b => decide (b ∉ acc)))).filter (fun b => !(b == a))
      congr 1
      rw [← uniqueFirst_filter, List.filter_filter]
      exact congrArg uniqueFirst (List.filter_congr fun b _ => by
        by_cases hb : b = a
        · subst hb
          simp
        · by_cases hbacc : b ∈ acc
          · simp [hb, hbacc]
          · simp [hb, hbacc])

/-- The code's `unique()` model agrees with the spec's wording of
first-appearance order: scanning left to right and appending unseen values
yields the same list. -/
lemma uniqueFirst_eq_appearanceOrderUnique {α : Type} [DecidableEq α] (l : List α) :
    uniqueFirst l = appearanceOrderUnique l := by
  unfold appearanceOrderUnique
  rw [foldl_uniqueFirst_gen l [], List.nil_append]
  refine congrArg uniqueFirst ?_ |>.symm
  have h : ∀ b ∈ l, (decide (b ∉ ([] : List α)) : Bool) = (fun _ => true) b := by
    intro b _
    simp
  rw [List.filter_congr h, List.filter_true]

/-- Splitting a list into the groups of a list of keys covering it partitions
its length: the group sizes sum to the list's length. -/
lemma length_eq_sum_group_lengths {α κ : Type} (key : α → κ) (eqb : κ → κ → Bool)
    (heqb : ∀ k k' : κ, eqb k k' = true ↔ k = k') :
    ∀ (keys : List κ) (l : List α), keys.Nodup → (∀ a ∈ l, key a ∈ keys) →
      (keys.map (fun k => (l.filter (fun a => eqb (key a) k)).length)).sum = l.length := by
  intro keys
  induction keys with
  | nil =>
    intro l _ hmem
    have hl : l = [] :=
      List.eq_nil_iff_forall_not_mem.2 fun a ha => List.not_mem_nil (key a) (hmem a ha)
    simp [hl]
  | cons k ks ih =>
    intro l hnd hmem
    obtain ⟨hk, hksnd⟩ := List.nodup_cons.1 hnd
    simp only [List.map_cons, List.sum_cons]
    have hsum2 :
        (ks.map (fun k' => (l.filter (fun a => eqb (key a) k')).length)).sum
          = (ks.map (fun k' =>
              ((l.filter (fun a => !(eqb (key a) k))).filter
                (fun a => eqb (key a) k')).length)).sum := by
      apply congrArg List.sum
      apply List.map_congr_left
      intro k' hk'
      congr 1
      rw [List.filter_filter]
      apply List.filter_congr
      intro a _
      cases h1 : eqb (key a) k' with
      | false => simp
      | true =>
        have h2 : eqb (key a) k = false := by
          cases h2 : eqb (key a) k with
          | false => rfl
          | true =>
            exfalso
            have e1 := (heqb _ _).1 h1
            have e2 := (heqb _ _).1 h2
            rw [e2] at e1
            exact hk (e1 ▸ hk')
        simp [h2]
    rw [hsum2, ih (l.filter (fun a => !(eqb (key a) k))) hksnd ?hcov]
    case hcov =>
      intro a ha
      obtain ⟨hal, hne⟩ := List.mem_filter.1 ha
      rcases List.mem_cons.1 (hmem a hal) with h | h
      · exfalso
        have : eqb (key a) k = true := (heqb _ _).2 h
        simp [this] at hne
      · exact h
    exact (List.length_eq_length_filter_add _).symm

lemma mem_teamKeys {l : Table} {t : String} :
    t ∈ teamKeys l ↔ ∃ r ∈ l, r.team = t := by
  unfold teamKeys sortStrings
  rw [List.mem_insertionSort, List.mem_dedup, List.mem_map]

lemma teamKeys_perm (l : Table) : (teamKeys l).Perm ((l.map Row.team).dedup) :=
  List.perm_insertionSort _ _

lemma calculate_team_stats_eq_map (df : Table) (year : Int) (sport : Option String) :
    calculate_team_stats df year sport
      = (teamKeys (teamStatsFiltered df year sport)).map (fun t =>
          { team := t,
            total_athletes :=
              ((teamStatsFiltered df year sport).filter (fun r => r.team == t)).length,
            female_athletes :=
              (((teamStatsFiltered df year sport).filter (fun r => r.team == t)).filter
                (fun r => r.sex == "F")).length,
            female_percentage :=
              ((((teamStatsFiltered df year sport).filter (fun r => r.team == t)).filter
                  (fun r => r.sex == "F")).length : ℚ)
                / (((teamStatsFiltered df year sport).filter
                    (fun r => r.team == t)).length : ℚ) * 100 }) := rfl

lemma calculate_team_stats_mem {df : Table} {year : Int} {sport : Option String}
    {st : TeamStat} (h : st ∈ calculate_team_stats df year sport) :
    st.team ∈ teamKeys (teamStatsFiltered df year sport)
    ∧ st.total_athletes
        = ((teamStatsFiltered df year sport).filter (fun r => r.team == st.team)).length
    ∧ st.female_athletes
        = (((teamStatsFiltered df year sport).filter (fun r => r.team == st.team)).filter
            (fun r => r.sex == "F")).length
    ∧ st.female_percentage
        = (st.female_athletes : ℚ) / (st.total_athletes : ℚ) * 100 := by
  rw [calculate_team_stats_eq_map] at h
  obtain ⟨t, ht, rfl⟩ := List.mem_map.1 h
  exact ⟨ht, rfl, rfl, rfl⟩

lemma calculate_team_stats_total_pos {df : Table} {year : Int} {sport : Option String}
    {st : TeamStat} (h : st ∈ calculate_team_stats df year sport) :
    1 ≤ st.total_athletes := by
  obtain ⟨hmem, htot, -, -⟩ := calculate_team_stats_mem h
  obtain ⟨r, hr, hteam⟩ := mem_teamKeys.1 hmem
  have hrf : r ∈ (teamStatsFiltered df year sport).filter (fun r => r.team == st.team) :=
    List.mem_filter.2 ⟨hr, by rw [hteam]; exact beq_self_eq_true _⟩
  rw [htot]
  exact List.length_pos_of_mem hrf

lemma calculate_team_stats_female_le {df : Table} {year : Int} {sport : Option String}
    {st : TeamStat} (h : st ∈ calculate_team_stats df year sport) :
    st.female_athletes ≤ st.total_athletes := by
  obtain ⟨-, htot, hfem, -⟩ := calculate_team_stats_mem h
  rw [htot, hfem]
  exact List.length_filter_le _ _

/-- C1: for every year and optional sport, `calculate_team_stats` returns
exactly the grouping of the season/year/sport-filtered rows by team: its team
column is exactly the distinct teams of the filtered subset (each once), and
each row carries that team's row count, its count of rows with sex `F`, and
the percentage `female/total * 100`. -/
theorem calculate_team_stats_groups_correct (df : Table) (year : Int)
    (sport : Option String) :
    ((calculate_team_stats df year sport).map TeamStat.team).Perm
        (((teamStatsFiltered df year sport).map Row.team).dedup)
    ∧ ∀ st ∈ calculate_team_stats df year sport,
        st.total_athletes
            = ((teamStatsFiltered df year sport).filter (fun r => r.team == st.team)).length
        ∧ st.female_athletes
            = ((teamStatsFiltered df year sport).filter
                (fun r => r.team == st.team && r.sex == "F")).length
        ∧ st.female_percentage
            = (st.female_athletes : ℚ) / (st.total_athletes : ℚ) * 100 := by
  constructor
  · have hmap : (calculate_team_stats df year sport).map TeamStat.team
        = teamKeys (teamStatsFiltered df year sport) := by
      rw [calculate_team_stats_eq_map, List.map_map]
      exact (List.map_congr_left fun t _ => rfl).trans (List.map_id _)
    rw [hmap]
    exact teamKeys_perm _
  · intro st h
    obtain ⟨-, htot, hfem, hpct⟩ := calculate_team_stats_mem h
    refine ⟨htot, ?_, hpct⟩
    rw [hfem, List.filter_filter]
    exact congrArg List.length (List.filter_congr fun a _ => Bool.and_comm _ _)

/-- Witness for C1 at the one-row table `df0`, year 2000, no sport. -/
theorem calculate_team_stats_groups_correct_witness :
    statA.total_athletes
        = ((teamStatsFiltered df0 2000 none).filter (fun r => r.team == statA.team)).length
    ∧ statA.female_athletes
        = ((teamStatsFiltered df0 2000 none).filter
            (fun r => r.team == statA.team && r.sex == "F")).length
    ∧ statA.female_percentage = (statA.female_athletes : ℚ) / (statA.total_athletes : ℚ) * 100 := by
  have hl : calculate_team_stats df0 2000 none = [statA] := rfl
  exact (calculate_team_stats_groups_correct df0 2000 none).2 statA
    (by rw [hl]; exact List.mem_singleton_self statA)

/-- C3: the total of `female_athletes` plus the total of
`total_athletes - female_athletes` over the aggregate equals the number of
Summer-season rows matching the (year, sport) filter. -/
theorem team_counts_sum_to_filtered_rows (df : Table) (year : Int)
    (sport : Option String) :
    ((calculate_team_stats df year sport).map TeamStat.female_athletes).sum
      + ((calculate_team_stats df year sport).map
          (fun st => st.total_athletes - st.female_athletes)).sum
      = (teamStatsFiltered df year sport).length := by
  have hfem : (calculate_team_stats df year sport).map TeamStat.female_athletes
      = (teamKeys (teamStatsFiltered df year sport)).map
          (fun t => (((teamStatsFiltered df year sport).filter (fun r => r.team == t)).filter
            (fun r => r.sex == "F")).length) := by
    rw [calculate_team_stats_eq_map, List.map_map]
    exact List.map_congr_left fun t _ => rfl
  have hsub : (calculate_team_stats df year sport).map
        (fun st => st.total_athletes - st.female_athletes)
      = (teamKeys (teamStatsFiltered df year sport)).map
          (fun t => ((teamStatsFiltered df year sport).filter (fun r => r.team == t)).length
            - (((teamStatsFiltered df year sport).filter (fun r => r.team == t)).filter
                (fun r => r.sex == "F")).length) := by
    rw [calculate_team_stats_eq_map, List.map_map]
    exact List.map_congr_left fun t _ => rfl
  have hsplit : ((teamKeys (teamStatsFiltered df year sport)).map
        (fun t => ((teamStatsFiltered df year sport).filter (fun r => r.team == t)).length)).sum
      = ((teamKeys (teamStatsFiltered df year sport)).map
          (fun t => (((teamStatsFiltered df year sport).filter (fun r => r.team == t)).filter
            (fun r => r.sex == "F")).length)).sum
        + ((teamKeys (teamStatsFiltered df year sport)).map
            (fun t => ((teamStatsFiltered df year sport).filter (fun r => r.team == t)).length
              - (((teamStatsFiltered df year sport).filter (fun r => r.team == t)).filter
                  (fun r => r.sex == "F")).length)).sum := by
    rw [← List.sum_map_add]
    exact congrArg List.sum (List.map_congr_left fun t _ =>
      (Nat.add_sub_cancel' (List.length_filter_le _ _)).symm)
  rw [hfem, hsub, ← hsplit]
  exact length_eq_sum_group_lengths Row.team (fun a b => a == b) (fun k k' => beq_iff_eq)
    (teamKeys (teamStatsFiltered df year sport)) (teamStatsFiltered df year sport)
    ((teamKeys_perm _).nodup_iff.mpr (List.nodup_dedup _))
    (fun r hr => mem_teamKeys.2 ⟨r, hr, rfl⟩)

/-- C4: every aggregate row's `female_percentage` lies in `[0, 100]`. -/
theorem female_percentage_in_range (df : Table) (year : Int) (sport : Option String) :
    ∀ st ∈ calculate_team_stats df year sport,
      0 ≤ st.female_percentage ∧ st.female_percentage ≤ 100 := by
  intro st h
  obtain ⟨-, -, -, hpct⟩ := calculate_team_stats_mem h
  have h2 : st.female_athletes ≤ st.total_athletes := calculate_team_stats_female_le h
  rw [hpct]
  have hq : (st.female_athletes : ℚ) / (st.total_athletes : ℚ) ≤ 1 :=
    div_le_one_of_le₀ (by exact_mod_cast h2) (by positivity)
  constructor
  · positivity
  · calc (st.female_athletes : ℚ) / (st.total_athletes : ℚ) * 100
        ≤ 1 * 100 := mul_le_mul_of_nonneg_right hq (by norm_num)
      _ = 100 := one_mul _

/-- Witness for C4 at the one-row table `df0`. -/
theorem female_percentage_in_range_witness :
    0 ≤ statA.female_percentage ∧ statA.female_percentage ≤ 100 := by
  have hl : calculate_team_stats df0 2000 none = [statA] := rfl
  exact female_percentage_in_range df0 2000 none statA
    (by rw [hl]; exact List.mem_singleton_self statA)

/-- C9: every aggregate row comes from a nonempty team group, so
`total_athletes ≥ 1`, `female_athletes ≤ total_athletes`, and the divisor of
the percentage computation is nonzero. -/
theorem team_groups_nonempty (df : Table) (year : Int) (sport : Option String) :
    ∀ st ∈ calculate_team_stats df year sport,
      1 ≤ st.total_athletes ∧ st.female_athletes ≤ st.total_athletes
      ∧ (st.total_athletes : ℚ) ≠ 0 := by
  intro st h
  have h1 := calculate_team_stats_total_pos h
  exact ⟨h1, calculate_team_stats_female_le h, Nat.cast_ne_zero.2 (by omega)⟩

/-- Witness for C9 at the one-row table `df0`. -/
theorem team_groups_nonempty_witness :
    1 ≤ statA.total_athletes ∧ statA.female_athletes ≤ statA.total_athletes
    ∧ (statA.total_athletes : ℚ) ≠ 0 := by
  have hl : calculate_team_stats df0 2000 none = [statA] := rfl
  exact team_groups_nonempty df0 2000 none statA
    (by rw [hl]; exact List.mem_singleton_self statA)

/-- C7: the aggregator and the chart callbacks are pure readers of the source
table: running one leaves the table unchanged, and re-running on the resulting
state reproduces the first result. -/
theorem aggregator_and_builders_pure (df : Table) (year : Int) (sport : Option String)
    (hover : Option String) :
    (calculate_team_stats_run df year sport).2 = df
    ∧ (calculate_team_stats_run ((calculate_team_stats_run df year sport).2) year sport).1
        = (calculate_team_stats_run df year sport).1
    ∧ (render_charts_run df year sport hover).2 = df
    ∧ (render_charts_run ((render_charts_run df year sport hover).2) year sport hover).1
        = (render_charts_run df year sport hover).1 :=
  ⟨rfl, rfl, rfl, rfl⟩

/-- C2 (the code faults): at a (year, sport) choice matching zero rows the
aggregate is empty and `update_map`'s `idxmax` raises instead of yielding an
empty chart; the sunburst is empty without raising, and the line chart ignores
the selected year entirely, so it is not even empty. -/
theorem update_map_faults_on_empty_aggregate :
    calculate_team_stats df0 1999 none = []
    ∧ update_map df0 1999 none = Except.error "attempt to get argmax of an empty sequence"
    ∧ (update_sunburst df0 none 1999 none).medal_counts = []
    ∧ (update_line_chart df0 none 1999 none).series
        = [⟨"Female", [(2000, 1)]⟩, ⟨"Male", []⟩] :=
  ⟨rfl, rfl, by decide, by decide⟩

/-- C5 counterexample: two different hovered teams whose rows are otherwise
identical give the same line-chart series and the same sunburst aggregate, so
a hover change need not change those charts' data. -/
theorem hover_change_counterexample :
    (some "A" : Option String) ≠ some "B"
    ∧ (update_line_chart dfAB (some "A") 2000 none).series
        = (update_line_chart dfAB (some "B") 2000 none).series
    ∧ (update_sunburst dfAB (some "A") 2000 none).medal_counts
        = (update_sunburst dfAB (some "B") 2000 none).medal_counts :=
  ⟨by decide, by decide, by decide⟩

/-- C5 amended: the choropleth does not depend on the hover input at all (the
hover is not an input of its callback), and for a nonempty hovered team the
line chart's and sunburst's data are the ones computed from the source rows
restricted to that team — so they change exactly when that restriction changes
the aggregate. -/
theorem hover_effects (df : Table) (year : Int) (sport : Option String)
    (h1 h2 : Option String) (t : String) (ht : t ≠ "") :
    (render_charts df year sport h1).1 = (render_charts df year sport h2).1
    ∧ (update_line_chart df (some t) year sport).series
        = (update_line_chart (df.filter (fun r => r.team == t)) none year sport).series
    ∧ (update_sunburst df (some t) year sport).medal_counts
        = (update_sunburst (df.filter (fun r => r.team == t)) none year sport).medal_counts := by
  have hline : lineFiltered df (some t) sport
      = lineFiltered (df.filter (fun r => r.team == t)) none sport := by
    simp only [lineFiltered, applyTeamFilter]
    rw [if_neg ht]
    exact congrArg (applySportFilter · sport) (filter_swap _ _ df)
  have hsun : sunburstFiltered df (some t) year sport
      = sunburstFiltered (df.filter (fun r => r.team == t)) none year sport := by
    simp only [sunburstFiltered, applyTeamFilter]
    rw [if_neg ht]
    exact congrArg (applySportFilter · sport) (filter_swap _ _ df)
  refine ⟨rfl, ?_, ?_⟩
  · show [genderSeries (athlete_counts (lineFiltered df (some t) sport)) "F" "Female",
          genderSeries (athlete_counts (lineFiltered df (some t) sport)) "M" "Male"]
        = [genderSeries (athlete_counts (lineFiltered (df.filter (fun r => r.team == t)) none sport)) "F" "Female",
           genderSeries (athlete_counts (lineFiltered (df.filter (fun r => r.team == t)) none sport)) "M" "Male"]
    rw [hline]
  · show medal_counts_of (sunburstFiltered df (some t) year sport)
        = medal_counts_of (sunburstFiltered (df.filter (fun r => r.team == t)) none year sport)
    rw [hsun]

/-- Witness for C5 amended at `df0` with hovered team `A`. -/
theorem hover_effects_witness :
    (render_charts df0 2000 none none).1 = (render_charts df0 2000 none (some "B")).1
    ∧ (update_line_chart df0 (some "A") 2000 none).series
        = (update_line_chart (df0.filter (fun r => r.team == "A")) none 2000 none).series
    ∧ (update_sunburst df0 (some "A") 2000 none).medal_counts
        = (update_sunburst (df0.filter (fun r => r.team == "A")) none 2000 none).medal_counts :=
  hover_effects df0 2000 none none (some "B") "A" (by decide)

/-- C6 counterexample: the dropdown options keep the sports' first-appearance
order, which differs from the sorted distinct sports the claim prescribes. -/
theorem sports_options_not_sorted :
    sports_options dfC6 = ["B", "A"]
    ∧ sortStrings (valid_sports dfC6) = ["A", "B"]
    ∧ sports_options dfC6 ≠ sortStrings (valid_sports dfC6) :=
  ⟨by decide, by decide, by decide⟩

/-- C6 amended: the derivation outputs the sorted set of distinct Summer
years, which populates the slider (sorted marks, range from least to greatest
valid year), but the distinct sports in first-appearance (unsorted) order —
`valid_sports` coincides with the spec-worded append-each-unseen-value scan —
and the dropdown options are exactly that first-appearance list. -/
theorem filter_derivation_correct (df : Table) :
    valid_sports df = appearanceOrderUnique ((summer_data df).map Row.sport)
    ∧ (valid_sports df).Nodup
    ∧ (∀ sp : String, sp ∈ valid_sports df ↔ ∃ r ∈ df, r.season = "Summer" ∧ r.sport = sp)
    ∧ sports_options df = valid_sports df
    ∧ (valid_years df).Nodup
    ∧ (∀ y : Int, y ∈ valid_years df ↔ ∃ r ∈ df, r.season = "Summer" ∧ r.year = y)
    ∧ (year_marks df).Perm (valid_years df)
    ∧ List.Sorted (fun a b : Int => a ≤ b) (year_marks df)
    ∧ ∀ y ∈ valid_years df, ∃ lo hi : Int,
        slider_min df = some lo ∧ slider_max df = some hi ∧ lo ≤ y ∧ y ≤ hi := by
  haveI hanti : Std.Antisymm (fun a b : Int => a ≤ b) := ⟨by intro a b u v; omega⟩
  refine ⟨uniqueFirst_eq_appearanceOrderUnique _, nodup_uniqueFirst _, ?_, rfl,
    nodup_uniqueFirst _, ?_, List.perm_insertionSort _ _, List.sorted_insertionSort _ _, ?_⟩
  · intro sp
    unfold valid_sports summer_data
    rw [mem_uniqueFirst, List.mem_map]
    constructor
    · rintro ⟨r, hr, rfl⟩
      obtain ⟨hrdf, hs⟩ := List.mem_filter.1 hr
      exact ⟨r, hrdf, by simpa using hs, rfl⟩
    · rintro ⟨r, hr, hs, hy⟩
      exact ⟨r, List.mem_filter.2 ⟨hr, by simp [hs]⟩, hy⟩
  · intro y
    unfold valid_years summer_data
    rw [mem_uniqueFirst, List.mem_map]
    constructor
    · rintro ⟨r, hr, rfl⟩
      obtain ⟨hrdf, hs⟩ := List.mem_filter.1 hr
      exact ⟨r, hrdf, by simpa using hs, rfl⟩
    · rintro ⟨r, hr, hs, hy⟩
      exact ⟨r, List.mem_filter.2 ⟨hr, by simp [hs]⟩, hy⟩
  · intro y hy
    have hne : valid_years df ≠ [] := List.ne_nil_of_mem hy
    cases hmin : (valid_years df).min? with
    | none => exact absurd (List.min?_eq_none_iff.1 hmin) hne
    | some lo =>
      cases hmax : (valid_years df).max? with
      | none => exact absurd (List.max?_eq_none_iff.1 hmax) hne
      | some hi =>
        have hlo := (List.min?_eq_some_iff (fun a => le_refl a)
          (fun a b => min_choice a b) (fun a b c => le_min_iff)).1 hmin
        have hhi := (List.max?_eq_some_iff (fun a => le_refl a)
          (fun a b => max_choice a b) (fun a b c => max_le_iff)).1 hmax
        exact ⟨lo, hi, hmin, hmax, hlo.2 y hy, hhi.2 y hy⟩

/-- Witness for C6 amended at the three-row table `dfC6`, year 2000. -/
theorem filter_derivation_correct_witness :
    valid_sports dfC6 = appearanceOrderUnique ((summer_data dfC6).map Row.sport)
    ∧ sports_options dfC6 = valid_sports dfC6
    ∧ (2000 ∈ valid_years dfC6 ↔ ∃ r ∈ dfC6, r.season = "Summer" ∧ r.year = 2000)
    ∧ List.Sorted (fun a b : Int => a ≤ b) (year_marks dfC6)
    ∧ ∃ lo hi : Int, slider_min dfC6 = some lo ∧ slider_max dfC6 = some hi
        ∧ lo ≤ 2000 ∧ 2000 ≤ hi := by
  obtain ⟨hap, -, -, hopt, -, hy, -, hsort, hrange⟩ := filter_derivation_correct dfC6
  exact ⟨hap, hopt, hy 2000, hsort, hrange 2000 (by decide)⟩

lemma mem_yearSexKeys {l : Table} {k : Int × String} :
    k ∈ yearSexKeys l ↔ ∃ r ∈ l, (r.year, r.sex) = k := by
  unfold yearSexKeys
  rw [List.mem_insertionSort, List.mem_dedup, List.mem_map]

lemma genderSeries_points_eq (l : Table) (g disp : String) :
    (genderSeries (athlete_counts l) g disp).points
      = ((yearSexKeys l).filter (fun k => k.2 == g)).map
          (fun k => (k.1, (l.filter (fun r => r.year == k.1 && r.sex == k.2)).length)) := by
  show ((((yearSexKeys l).map (fun k =>
      (k.1, k.2, (l.filter (fun r => r.year == k.1 && r.sex == k.2)).length))).filter
        (fun k => k.2.1 == g)).map (fun k => (k.1, k.2.2)))
    = ((yearSexKeys l).filter (fun k => k.2 == g)).map
        (fun k => (k.1, (l.filter (fun r => r.year == k.1 && r.sex == k.2)).length))
  rw [List.filter_map, List.map_map]
  rfl

lemma genderSeries_points_mem (l : Table) (g disp : String) (p : Int × Nat) :
    p ∈ (genderSeries (athlete_counts l) g disp).points ↔
      ((∃ r ∈ l, r.sex = g ∧ r.year = p.1)
        ∧ p.2 = (l.filter (fun r => r.sex == g && r.year == p.1)).length) := by
  rw [genderSeries_points_eq, List.mem_map]
  constructor
  · rintro ⟨⟨k1, k2⟩, hk, rfl⟩
    obtain ⟨hkeys, hkg⟩ := List.mem_filter.1 hk
    have hkg2 : k2 = g := by simpa using hkg
    obtain ⟨r, hr, hrk⟩ := mem_yearSexKeys.1 hkeys
    have hry : r.year = k1 := congrArg Prod.fst hrk
    have hrs : r.sex = k2 := congrArg Prod.snd hrk
    refine ⟨⟨r, hr, hrs.trans hkg2, hry⟩, ?_⟩
    show (l.filter (fun r => r.year == k1 && r.sex == k2)).length
        = (l.filter (fun r => r.sex == g && r.year == k1)).length
    rw [hkg2]
    exact congrArg List.length (List.filter_congr fun a _ => Bool.and_comm _ _)
  · rintro ⟨⟨r, hr, hsex, hyear⟩, hp2⟩
    refine ⟨(p.1, g), List.mem_filter.2 ⟨mem_yearSexKeys.2 ⟨r, hr, ?_⟩, ?_⟩, ?_⟩
    · rw [hyear, hsex]
    · exact beq_self_eq_true g
    · have hcnt : (l.filter (fun r => r.year == p.1 && r.sex == g)).length = p.2 := by
        rw [hp2]
        exact congrArg List.length (List.filter_congr fun a _ => Bool.and_comm _ _)
      show (p.1, (l.filter (fun r => r.year == p.1 && r.sex == g)).length) = p
      rw [hcnt]

/-- C8 counterexample: with a sport selected, the line chart also filters by
that sport, so its count at year 2000 is 1 while the claim's described
aggregation (season and hover only) counts 2 rows. -/
theorem line_chart_sport_filter_counterexample :
    (update_line_chart dfC8 none 2000 (some "A")).series
        = [⟨"Female", [(2000, 1)]⟩, ⟨"Male", []⟩]
    ∧ ((dfC8.filter (fun r => r.season == "Summer")).filter
        (fun r => r.sex == "F" && r.year == 2000)).length = 2 :=
  ⟨by decide, by decide⟩

/-- C8 amended: the line-chart builder filters to season Summer, the optional
hovered team AND the optional selected sport; it draws exactly the two series
`Female` and `Male`, whose points are exactly the years present for that sex
in the filtered subset with the per-(year, sex) row counts, and it puts the
vertical marker at the selected year. -/
theorem update_line_chart_spec (df : Table) (hover : Option String) (year : Int)
    (sport : Option String) :
    ∃ sF sM : Series,
      (update_line_chart df hover year sport).series = [sF, sM]
      ∧ sF.name = "Female" ∧ sM.name = "Male"
      ∧ (∀ p : Int × Nat, p ∈ sF.points ↔
          ((∃ r ∈ lineFiltered df hover sport, r.sex = "F" ∧ r.year = p.1)
            ∧ p.2 = ((lineFiltered df hover sport).filter
                (fun r => r.sex == "F" && r.year == p.1)).length))
      ∧ (∀ p : Int × Nat, p ∈ sM.points ↔
          ((∃ r ∈ lineFiltered df hover sport, r.sex = "M" ∧ r.year = p.1)
            ∧ p.2 = ((lineFiltered df hover sport).filter
                (fun r => r.sex == "M" && r.year == p.1)).length))
      ∧ (update_line_chart df hover year sport).vline_x = year :=
  ⟨genderSeries (athlete_counts (lineFiltered df hover sport)) "F" "Female",
   genderSeries (athlete_counts (lineFiltered df hover sport)) "M" "Male",
   rfl, rfl, rfl,
   fun p => genderSeries_points_mem (lineFiltered df hover sport) "F" "Female" p,
   fun p => genderSeries_points_mem (lineFiltered df hover sport) "M" "Male" p,
   rfl⟩

lemma mem_sexMedalKeys {l : Table} {k : String × String} :
    k ∈ sexMedalKeys l
      ↔ ∃ r ∈ l.filter (fun r => r.medal.isSome), (r.sex, r.medal.getD "") = k := by
  unfold sexMedalKeys
  rw [List.mem_insertionSort, List.mem_dedup, List.mem_map]

lemma update_sunburst_medal_counts (df : Table) (hover : Option String) (year : Int)
    (sport : Option String) :
    (update_sunburst df hover year sport).medal_counts
      = medal_counts_of (sunburstFiltered df hover year sport) := rfl

/-- C10: the sunburst aggregate counts only rows whose medal is present: the
group sizes sum to the number of medal-carrying rows of the filtered subset,
every group key stems from a medal-carrying row, and whenever a filtered row
without a medal exists the rendered total is strictly below the number of
athletes matching the filters. -/
theorem update_sunburst_medal_rows_only (df : Table) (hover : Option String)
    (year : Int) (sport : Option String) :
    ((update_sunburst df hover year sport).medal_counts.map (fun k => k.2.2)).sum
        = ((sunburstFiltered df hover year sport).filter (fun r => r.medal.isSome)).length
    ∧ (∀ k ∈ (update_sunburst df hover year sport).medal_counts,
        ∃ r ∈ sunburstFiltered df hover year sport, r.sex = k.1 ∧ r.medal = some k.2.1)
    ∧ ((∃ r ∈ sunburstFiltered df hover year sport, r.medal = none) →
        ((update_sunburst df hover year sport).medal_counts.map (fun k => k.2.2)).sum
          < (sunburstFiltered df hover year sport).length) := by
  have heqb : ∀ k k' : String × String, (k.1 == k'.1 && k.2 == k'.2) = true ↔ k = k' := by
    intro k k'
    simp [Prod.ext_iff]
  have hfilters : ∀ k : String × String,
      ((sunburstFiltered df hover year sport).filter (fun r => r.medal.isSome)).filter
          (fun r => r.sex == k.1 && r.medal == some k.2)
        = ((sunburstFiltered df hover year sport).filter (fun r => r.medal.isSome)).filter
            (fun r => (r.sex, r.medal.getD "").1 == k.1
              && (r.sex, r.medal.getD "").2 == k.2) := by
    intro k
    apply List.filter_congr
    intro r hr
    obtain ⟨-, hsome⟩ := List.mem_filter.1 hr
    obtain ⟨m, hm⟩ := Option.isSome_iff_exists.1 hsome
    rw [hm]
    rfl
  have hsum : ((update_sunburst df hover year sport).medal_counts.map (fun k => k.2.2)).sum
      = ((sunburstFiltered df hover year sport).filter (fun r => r.medal.isSome)).length := by
    rw [update_sunburst_medal_counts]
    have hmap : (medal_counts_of (sunburstFiltered df hover year sport)).map (fun k => k.2.2)
        = (sexMedalKeys (sunburstFiltered df hover year sport)).map
            (fun k => (((sunburstFiltered df hover year sport).filter
                (fun r => r.medal.isSome)).filter
              (fun r => r.sex == k.1 && r.medal == some k.2)).length) := by
      unfold medal_counts_of
      rw [List.map_map]
      exact List.map_congr_left fun k _ => rfl
    rw [hmap]
    have hcong : (sexMedalKeys (sunburstFiltered df hover year sport)).map
          (fun k => (((sunburstFiltered df hover year sport).filter
              (fun r => r.medal.isSome)).filter
            (fun r => r.sex == k.1 && r.medal == some k.2)).length)
        = (sexMedalKeys (sunburstFiltered df hover year sport)).map
            (fun k => (((sunburstFiltered df hover year sport).filter
                (fun r => r.medal.isSome)).filter
              (fun r => (r.sex, r.medal.getD "").1 == k.1
                && (r.sex, r.medal.getD "").2 == k.2)).length) :=
      List.map_congr_left fun k _ => congrArg List.length (hfilters k)
    rw [hcong]
    exact length_eq_sum_group_lengths (fun r => (r.sex, r.medal.getD ""))
      (fun a b => a.1 == b.1 && a.2 == b.2) heqb
      (sexMedalKeys (sunburstFiltered df hover year sport))
      ((sunburstFiltered df hover year sport).filter (fun r => r.medal.isSome))
      ((List.perm_insertionSort _ _).nodup_iff.mpr (List.nodup_dedup _))
      (fun r hr => mem_sexMedalKeys.2 ⟨r, hr, rfl⟩)
  refine ⟨hsum, ?_, ?_⟩
  · intro k hk
    rw [update_sunburst_medal_counts] at hk
    unfold medal_counts_of at hk
    obtain ⟨kk, hkk, rfl⟩ := List.mem_map.1 hk
    obtain ⟨r, hrm, hrk⟩ := mem_sexMedalKeys.1 hkk
    obtain ⟨hrL, hsome⟩ := List.mem_filter.1 hrm
    obtain ⟨m, hm⟩ := Option.isSome_iff_exists.1 hsome
    refine ⟨r, hrL, congrArg Prod.fst hrk, ?_⟩
    have h2 : r.medal.getD "" = kk.2 := congrArg Prod.snd hrk
    rw [hm] at h2 ⊢
    exact congrArg some h2
  · rintro ⟨r, hr, hmed⟩
    rw [hsum]
    exact List.length_filter_lt_length_iff_exists.2 ⟨r, hr, by simp [hmed]⟩

/-- Witness for C10 at `dfMix`, whose second row has no medal. -/
theorem update_sunburst_medal_rows_only_witness :
    (∃ r ∈ sunburstFiltered dfMix none 2000 none, r.sex = "F" ∧ r.medal = some "Gold")
    ∧ ((update_sunburst dfMix none 2000 none).medal_counts.map (fun k => k.2.2)).sum
        < (sunburstFiltered dfMix none 2000 none).length := by
  obtain ⟨-, hk, hlt⟩ := update_sunburst_medal_rows_only dfMix none 2000 none
  exact ⟨hk ("F", "Gold", 1) (by decide), hlt (by decide)⟩
